import Mathlib

/-
Verification of the PortSentry scan-diff-classify-persist pipeline.

The definitions below are a shallow embedding of the Python sources:
  * `src/core/port_scanner.py`  — snapshot collection and change detection
  * `src/core/alert_manager.py` — risk classification, alert creation,
                                  retry policy, alert resolution
  * `src/app.py`                — scheduler interval choice, scan-now trigger
  * `src/config.py`             — configuration constants

Python dictionaries keyed by the f-string `f"{port}-{protocol}"` are
represented as association lists over the pair `(port, protocol)`; the
f-string is injective on the protocol values the scanner can produce
("TCP" / "UDP" / "UNKNOWN"), so the pair is a faithful key.  Insertion
order and last-write-wins update of Python dicts are modelled explicitly.
Wall-clock timestamps, logging and the time.sleep delays are not part of
any functional claim and are left out of the state.
-/

namespace PortSentry

/-- One observed endpoint, the dict built by `PortScanner.parse_port_info`
(`port_data` in the source).  The `timestamp` field of the source is
wall-clock time and is omitted. -/
structure PortData where
  port : Nat
  protocol : String
  state : String
  pid : Option Nat
  process_name : String
  user : String
  cmdline : String
  exec_path : String
  start_time : String
  local_address : String
  remote_address : String
deriving DecidableEq, Repr

/-- The identity key used by the scanner: Python `f"{port}-{protocol}"`,
represented as the pair `(port, protocol)`. -/
abbrev PortKey := Nat × String

/-- Key of an entry, as computed in `scan_ports` / `detect_changes`. -/
def PortData.key (p : PortData) : PortKey := (p.port, p.protocol)

/-- Association-list representation of a Python dict `key -> PortData`. -/
abbrev PortDict := List (PortKey × PortData)

/-- Python `key in dict`. -/
def hasKey (d : PortDict) (k : PortKey) : Bool :=
  d.any (fun e => decide (e.1 = k))

/-- Python `dict[key]` as an `Option` (the value stored for `key`). -/
def dictGet (d : PortDict) (k : PortKey) : Option PortData :=
  (d.find? (fun e => decide (e.1 = k))).map (fun e => e.2)

/-- Python dict assignment `d[k] = v`: overwrite in place if the key is
present, otherwise append at the end (insertion order). -/
def dictInsert (d : PortDict) (k : PortKey) (v : PortData) : PortDict :=
  if hasKey d k then d.map (fun e => if e.1 = k then (k, v) else e)
  else d ++ [(k, v)]

/-- The dict comprehension `{f"{p['port']}-{p['protocol']}": p for p in l}`
used in `scan_ports` and `detect_changes`. -/
def toDict (l : List PortData) : PortDict :=
  l.foldl (fun d p => dictInsert d p.key p) []

/-- One element of `changes['changed_ports']`:
`{'port_data': current, 'previous_state': previous}`. -/
structure Changed where
  port_data : PortData
  previous_state : PortData
deriving DecidableEq, Repr

/-- The `changes` dict returned by `PortScanner.detect_changes`. -/
structure Changes where
  new_ports : List PortData
  closed_ports : List PortData
  changed_ports : List Changed
deriving DecidableEq, Repr

/-- Embedding of `PortScanner.detect_changes` (src/core/port_scanner.py, lines 208-254).
`last_scan_result` is the key→entry dict stored by the previous
`scan_ports` call (`{}` before the first scan). -/
def detect_changes (last_scan_result : PortDict) (current_scan : List PortData) :
    Changes :=
  let current_dict := toDict current_scan
  let last_dict := last_scan_result
  { new_ports :=
      (current_dict.filter (fun e => !hasKey last_dict e.1)).map (fun e => e.2)
    closed_ports :=
      (last_dict.filter (fun e => !hasKey current_dict e.1)).map (fun e => e.2)
    changed_ports :=
      current_dict.filterMap (fun e =>
        match dictGet last_dict e.1 with
        | some last_data =>
            if e.2.state ≠ last_data.state ∨ e.2.pid ≠ last_data.pid then
              some { port_data := e.2, previous_state := last_data }
            else none
        | none => none) }

/-- Python substring test `needle in hay` on strings. -/
def strContains (hay needle : String) : Bool :=
  decide (needle.data <:+: hay.data)

/-- The `AlertManager.high_risk_ports` set (only membership is used). -/
def high_risk_ports : List Nat :=
  [21, 22, 23, 25, 53, 80, 110, 135, 139, 143, 443, 993, 995,
   1433, 1434, 1723, 3306, 3389, 5432, 5900, 6379, 27017]

/-- The `AlertManager.medium_risk_ports` set. -/
def medium_risk_ports : List Nat :=
  [161, 389, 636, 873, 2049, 3128, 3690, 4848, 5000, 5432, 5901,
   5984, 6379, 7001, 8000, 8080, 8081, 8443, 9000, 9200, 9300]

/-- The `high_risk_processes` set of `AlertManager._determine_alert_level`. -/
def high_risk_processes : List String :=
  ["nc", "ncat", "telnet", "ftp", "tftp", "ssh", "rsh", "rexec"]

/-- The `suspicious_states` set of `AlertManager._determine_alert_level`. -/
def suspicious_states : List String :=
  ["syn-sent", "syn-recv", "fin-wait-1", "fin-wait-2", "close-wait"]

/-- The `change_type` argument of the classifier.  `check_port_changes`
only ever passes the strings `'new'` and `'closed'`. -/
inductive ChangeType where
  | new
  | closed
deriving DecidableEq, Repr

/-- Embedding of `AlertManager._determine_alert_level` (src/core/alert_manager.py,
lines 91-127): sequential early-return rules, first match wins. -/
def determine_alert_level (port_data : PortData) (change_type : ChangeType) :
    String :=
  if change_type = ChangeType.new ∧ port_data.port ∈ high_risk_ports then
    "ERROR"
  else if change_type = ChangeType.new ∧
      high_risk_processes.any
        (fun proc => strContains port_data.process_name.toLower proc) then
    "ERROR"
  else if port_data.state ∈ suspicious_states then
    "WARNING"
  else if change_type = ChangeType.new ∧ port_data.port ∈ medium_risk_ports then
    "WARNING"
  else if change_type = ChangeType.closed ∧ port_data.port ∈ high_risk_ports then
    "WARNING"
  else
    "INFO"

/-- Embedding of `AlertManager._generate_alert_message` (src/core/alert_manager.py,
lines 129-162).  `base_messages[change_type][level]` is only reached with
the three levels the classifier produces; levels other than ERROR and
WARNING select the INFO template. -/
def generate_alert_message (port_data : PortData) (change_type : ChangeType)
    (level : String) : String :=
  let base :=
    match change_type with
    | ChangeType.new =>
        if level = "ERROR" then
          "🚨 高风险端口开启 - 端口 " ++ toString port_data.port ++ "/" ++
            port_data.protocol ++ " 被进程 " ++ port_data.process_name ++ " 打开"
        else if level = "WARNING" then
          "⚠️ 端口异常开启 - 端口 " ++ toString port_data.port ++ "/" ++
            port_data.protocol ++ " 被进程 " ++ port_data.process_name ++ " 打开"
        else
          "📝 端口开启 - 端口 " ++ toString port_data.port ++ "/" ++
            port_data.protocol ++ " 被进程 " ++ port_data.process_name ++ " 打开"
    | ChangeType.closed =>
        if level = "ERROR" then
          "🚨 关键端口关闭 - 端口 " ++ toString port_data.port ++ "/" ++
            port_data.protocol ++ " 已关闭"
        else if level = "WARNING" then
          "⚠️ 端口异常关闭 - 端口 " ++ toString port_data.port ++ "/" ++
            port_data.protocol ++ " 已关闭"
        else
          "📝 端口关闭 - 端口 " ++ toString port_data.port ++ "/" ++
            port_data.protocol ++ " 已关闭"
  let withState :=
    if port_data.state ≠ "" ∧ port_data.state ≠ "listening" then
      base ++ " (状态: " ++ port_data.state ++ ")"
    else base
  if level = "ERROR" then
    if port_data.port ∈ high_risk_ports then
      withState ++ " - 此端口(" ++ toString port_data.port ++ ")通常用于敏感服务"
    else if ["nc", "ncat", "telnet"].any
        (fun proc => strContains port_data.process_name.toLower proc) then
      withState ++ " - 检测到可疑网络工具(" ++ port_data.process_name ++ ")"
    else withState
  else withState

/-- One row of the `alerts` table as created by `check_port_changes`
(`id` is assigned by the database, `timestamp` is wall clock; both are
outside the functional claims). -/
structure Alert where
  level : String
  title : String
  message : String
  port : Nat
  resolved : Bool
deriving DecidableEq, Repr

/-- The alert built and `db.session.add`-ed for one changed port inside
`AlertManager.check_port_changes`. -/
def port_change_alert (pd : PortData) (ct : ChangeType) : Alert :=
  { level := determine_alert_level pd ct
    title := "端口状态变化"
    message := generate_alert_message pd ct (determine_alert_level pd ct)
    port := pd.port
    resolved := false }

/-- Embedding of `AlertManager.check_port_changes` (src/core/alert_manager.py, lines
164-212): the list of alerts created and committed for a change set.
The source iterates `changes.get('new_ports', [])` and then
`changes.get('closed_ports', [])`; `changed_ports` is never read. -/
def check_port_changes (changes : Changes) : List Alert :=
  changes.new_ports.map (fun pd => port_change_alert pd ChangeType.new)
    ++ changes.closed_ports.map (fun pd => port_change_alert pd ChangeType.closed)

/-- Outcome of one attempt of a database operation:
`success` is a normal return, `transient` an `OperationalError` or
`DisconnectionError`, `failure` any other exception. -/
inductive DbAttempt (α : Type) where
  | success (result : α)
  | transient
  | failure
deriving DecidableEq, Repr

/-- Loop body of `AlertManager._db_operation_with_retry` starting at a
given attempt index, also tracking the number of attempts made and the
number of `db.session.rollback()` calls.  The `none` result is Python
falling off the end of the `for` loop (only possible when
`max_retries = 0`); every caught failure returns `some []`. -/
def db_operation_with_retry_go {α : Type} (op : Nat → DbAttempt (List α))
    (max_retries attempt rollbacks : Nat) : Option (List α) × Nat × Nat :=
  if attempt < max_retries then
    match op attempt with
    | DbAttempt.success r => (some r, attempt + 1, rollbacks)
    | DbAttempt.transient =>
        if attempt < max_retries - 1 then
          db_operation_with_retry_go op max_retries (attempt + 1) (rollbacks + 1)
        else (some [], attempt + 1, rollbacks)
    | DbAttempt.failure => (some [], attempt + 1, rollbacks)
  else (none, attempt, rollbacks)
termination_by max_retries - attempt
decreasing_by omega

/-- Embedding of `AlertManager._db_operation_with_retry` (src/core/alert_manager.py,
lines 58-76), returning `(result, attempts made, rollbacks performed)`. -/
def db_operation_with_retry {α : Type} (op : Nat → DbAttempt (List α))
    (max_retries : Nat) : Option (List α) × Nat × Nat :=
  db_operation_with_retry_go op max_retries 0 0

/-- The `AlertManager.max_retries` value (set in `__init__`). -/
def alert_manager_max_retries : Nat := 3

/-- The persisted alert table: rows keyed by primary key `id`. -/
abbrev AlertStore := List (Nat × Alert)

/-- Primary-key lookup `Alert.query.get(alert_id)`. -/
def store_get (store : AlertStore) (alert_id : Nat) : Option Alert :=
  (store.find? (fun e => decide (e.1 = alert_id))).map (fun e => e.2)

/-- The `_resolve_alert` body of `AlertManager.resolve_alert`
(src/core/alert_manager.py, lines 226-238): look the alert up by id; if
found set `resolved = True` and commit, returning `True`; otherwise
return `False`.  The returned store is the table after the commit. -/
def resolve_alert (store : AlertStore) (alert_id : Nat) : Bool × AlertStore :=
  match store_get store alert_id with
  | some _ =>
      (true,
       store.map (fun e =>
         if e.1 = alert_id then (e.1, { e.2 with resolved := true }) else e))
  | none => (false, store)

namespace Config

/-- Value of `Config.SCAN_INTERVAL_IDLE` (src/config.py). -/
def SCAN_INTERVAL_IDLE : Nat := 30

/-- Value of `Config.SCAN_INTERVAL_BUSY` (src/config.py). -/
def SCAN_INTERVAL_BUSY : Nat := 2

/-- Value of `Config.IGNORE_PORTS` (src/config.py, line 32). -/
def IGNORE_PORTS : List Nat := [5432]

end Config

/-- The value stored under one key of the `changes` dict. -/
inductive ChangeList where
  | ports (l : List PortData)
  | modified (l : List Changed)
deriving DecidableEq, Repr

/-- The Python dict built by `detect_changes` as seen by
`background_scanner`: it always carries exactly its three keys. -/
def changes_as_py_dict (c : Changes) : List (String × ChangeList) :=
  [("new_ports", ChangeList.ports c.new_ports),
   ("closed_ports", ChangeList.ports c.closed_ports),
   ("changed_ports", ChangeList.modified c.changed_ports)]

/-- Python truthiness of a dict: true iff it has at least one key. -/
def py_dict_truthy (d : List (String × ChangeList)) : Bool := !d.isEmpty

/-- The sleep-interval choice of `background_scanner` (src/app.py):
`interval = SCAN_INTERVAL_IDLE; if scan_result['changes']: interval =
SCAN_INTERVAL_BUSY`, where `scan_result['changes']` is the dict returned
by `detect_changes`. -/
def next_scan_interval (changes : Changes) : Nat :=
  if py_dict_truthy (changes_as_py_dict changes) then Config.SCAN_INTERVAL_BUSY
  else Config.SCAN_INTERVAL_IDLE

/-- The JSON response of the `/api/scan-now` handler together with
whether a one-shot scan thread was spawned. -/
structure TriggerScanResult where
  success : Bool
  http_status : Nat
  scan_started : Bool
  message : String
deriving DecidableEq, Repr

/-- Embedding of `trigger_scan` (src/app.py, lines 261-279) as a function of the
`app_state['is_scanning']` flag. -/
def trigger_scan (is_scanning : Bool) : TriggerScanResult :=
  if is_scanning then
    { success := false, http_status := 409, scan_started := false,
      message := "Scan already in progress" }
  else
    { success := true, http_status := 200, scan_started := true,
      message := "Scan started" }

/-- Socket type of a `psutil` connection. -/
inductive SockType where
  | stream
  | dgram
  | other
deriving DecidableEq, Repr

/-- A network address `ip:port`. -/
structure Addr where
  ip : String
  port : Nat
deriving DecidableEq, Repr

/-- One entry of `psutil.net_connections(kind='inet')`. -/
structure Conn where
  laddr : Option Addr
  raddr : Option Addr
  pid : Option Nat
  type : SockType
  status : String
deriving DecidableEq, Repr

/-- The process metadata dict returned by `get_process_info` on success. -/
structure ProcInfo where
  name : String
  username : String
  cmdline : String
  exe : String
  create_time : String
deriving DecidableEq, Repr

/-- Protocol selection of `parse_port_info` from the socket type. -/
def conn_protocol (t : SockType) : String :=
  match t with
  | SockType.stream => "TCP"
  | SockType.dgram => "UDP"
  | SockType.other => "UNKNOWN"

/-- Loop body of `PortScanner.parse_port_info` for one connection.
`proc_table` models `get_process_info`: `none` is the empty dict returned
on `psutil.NoSuchProcess` / `psutil.AccessDenied` (lines 162-186); a
connection with no pid skips the lookup and keeps the empty dict.  An
entry whose process name resolves to `'unknown'` is dropped
(`continue`). -/
def conn_to_port_data (proc_table : Nat → Option ProcInfo) (conn : Conn) :
    Option PortData :=
  match conn.laddr with
  | none => none
  | some la =>
      let process_info : Option ProcInfo :=
        match conn.pid with
        | some p => proc_table p
        | none => none
      let process_name :=
        match process_info with
        | some i => i.name
        | none => "unknown"
      if process_name = "unknown" then none
      else
        some
          { port := la.port
            protocol := conn_protocol conn.type
            state := conn.status
            pid := conn.pid
            process_name := process_name
            user :=
              match process_info with
              | some i => i.username
              | none => "unknown"
            cmdline :=
              match process_info with
              | some i => i.cmdline
              | none => ""
            exec_path :=
              match process_info with
              | some i => i.exe
              | none => ""
            start_time :=
              match process_info with
              | some i => i.create_time
              | none => ""
            local_address := la.ip ++ ":" ++ toString la.port
            remote_address :=
              match conn.raddr with
              | some ra => ra.ip ++ ":" ++ toString ra.port
              | none => "" }

/-- The accumulation loop of `parse_port_info` over the enumerated
connections (`port_info = []; for conn in ...: ... port_info.append`). -/
def parse_port_info_loop (proc_table : Nat → Option ProcInfo)
    (conns : List Conn) : List PortData :=
  conns.foldl
    (fun acc conn =>
      match conn_to_port_data proc_table conn with
      | some pd => acc ++ [pd]
      | none => acc)
    []

/-- Embedding of `PortScanner.parse_port_info` (src/core/port_scanner.py, lines
106-160).  The enumeration collaborator may fail
(`psutil.net_connections` raising); the surrounding `try` catches it and
the accumulated `port_info` (empty) is returned. -/
def parse_port_info (proc_table : Nat → Option ProcInfo)
    (enumeration : Except String (List Conn)) : List PortData :=
  match enumeration with
  | Except.error _ => []
  | Except.ok conns => parse_port_info_loop proc_table conns

/-- Transcription of the spec's risk-classification contract (§4.3):
`classify(change_kind, port, process_name, connection_state) → level`,
evaluated with first-match-wins priority over the six listed rules.
Kept separate from `determine_alert_level` (which is the code) so the two
can be compared. -/
def spec_classify_level (change_kind : ChangeType) (port : Nat)
    (process_name : String) (connection_state : String) : String :=
  if change_kind = ChangeType.new ∧ port ∈ high_risk_ports then "ERROR"
  else if change_kind = ChangeType.new ∧
      high_risk_processes.any
        (fun tool => strContains process_name.toLower tool) then "ERROR"
  else if connection_state ∈ suspicious_states then "WARNING"
  else if change_kind = ChangeType.new ∧ port ∈ medium_risk_ports then "WARNING"
  else if change_kind = ChangeType.closed ∧ port ∈ high_risk_ports then
    "WARNING"
  else "INFO"

/-- Helper for concrete test entries. -/
def sample_entry (port : Nat) (protocol state : String) (pid : Option Nat)
    (process_name : String) : PortData :=
  { port := port, protocol := protocol, state := state, pid := pid
    process_name := process_name, user := "root", cmdline := ""
    exec_path := "", start_time := "", local_address := "", remote_address := "" }

/-- Concrete entry: sshd listening on 22/TCP. -/
def pd_ssh : PortData := sample_entry 22 "TCP" "LISTEN" (some 100) "sshd"

/-- Concrete entry: python listening on 8080/TCP. -/
def pd_http : PortData := sample_entry 8080 "TCP" "LISTEN" (some 1) "python"

/-- Concrete entry: port 443/TCP owned by pid 5. -/
def pd_tls_prev : PortData := sample_entry 443 "TCP" "LISTEN" (some 5) "nginx"

/-- Concrete entry: port 443/TCP owned by pid 6 (pid changed). -/
def pd_tls_cur : PortData := sample_entry 443 "TCP" "LISTEN" (some 6) "nginx"

/-- Concrete entry: postgres on 5432/TCP (5432 is the ignore-listed port),
pid 10. -/
def pd_pg_prev : PortData := sample_entry 5432 "TCP" "LISTEN" (some 10) "postgres"

/-- Concrete entry: postgres on 5432/TCP, pid 11 (pid changed). -/
def pd_pg_cur : PortData := sample_entry 5432 "TCP" "LISTEN" (some 11) "postgres"

/-- A concrete alert row used to exercise `resolve_alert`. -/
def alert_row : Alert :=
  { level := "INFO", title := "t", message := "m", port := 8080, resolved := false }

/-- A retry schedule that fails transiently twice, then succeeds. -/
def retry_op_example : Nat → DbAttempt (List Nat) :=
  fun k => if k < 2 then DbAttempt.transient else DbAttempt.success [7]

/-- A concrete process table: pid 100 is sshd, every other pid fails to
resolve. -/
def proc_table_example : Nat → Option ProcInfo :=
  fun p =>
    if p = 100 then
      some { name := "sshd", username := "root", cmdline := "/usr/sbin/sshd"
             exe := "/usr/sbin/sshd", create_time := "2026-01-01 00:00:00" }
    else none

/-- A connection whose process metadata resolves (pid 100). -/
def conn_ok_example : Conn :=
  { laddr := some { ip := "0.0.0.0", port := 22 }, raddr := none
    pid := some 100, type := SockType.stream, status := "LISTEN" }

/-- A connection with no owning pid: its metadata cannot be resolved. -/
def conn_no_pid_example : Conn :=
  { laddr := some { ip := "0.0.0.0", port := 53 }, raddr := none
    pid := none, type := SockType.dgram, status := "NONE" }

/-! Theorems.  First a small toolkit about the Python-dict model, then one
theorem per claim (with a witness or counterexample where needed). -/

theorem hasKey_eq_true {d : PortDict} {k : PortKey} :
    hasKey d k = true ↔ ∃ v, (k, v) ∈ d := by
  simp only [hasKey, List.any_eq_true, decide_eq_true_eq]
  constructor
  · rintro ⟨⟨k', v⟩, he, hk⟩
    subst hk
    exact ⟨v, he⟩
  · rintro ⟨v, hv⟩
    exact ⟨(k, v), hv, rfl⟩

theorem hasKey_eq_false {d : PortDict} {k : PortKey} :
    hasKey d k = false ↔ ∀ v, (k, v) ∉ d := by
  rw [Bool.eq_false_iff, Ne, hasKey_eq_true]
  simp

theorem mem_keys_iff_hasKey {d : PortDict} {k : PortKey} :
    k ∈ d.map Prod.fst ↔ hasKey d k = true := by
  rw [hasKey_eq_true, List.mem_map]
  constructor
  · rintro ⟨⟨k', v⟩, he, hk⟩
    cases hk
    exact ⟨v, he⟩
  · rintro ⟨v, hv⟩
    exact ⟨(k, v), hv, rfl⟩

theorem dictGet_eq_some {d : PortDict} (hnd : (d.map Prod.fst).Nodup)
    {k : PortKey} {v : PortData} : dictGet d k = some v ↔ (k, v) ∈ d := by
  induction d with
  | nil => simp [dictGet]
  | cons e t ih =>
      obtain ⟨k', v'⟩ := e
      simp only [List.map_cons, List.nodup_cons] at hnd
      obtain ⟨hk', hnd'⟩ := hnd
      by_cases he : k' = k
      · subst he
        rw [dictGet, List.find?_cons_of_pos _ (by simp)]
        constructor
        · intro h
          have hv : v' = v := by simpa using h
          subst hv
          exact List.mem_cons_self _ _
        · intro h
          rcases List.mem_cons.mp h with h1 | h1
          · have hv : v = v' := by simpa using h1
            subst hv
            rfl
          · exact absurd (List.mem_map_of_mem Prod.fst h1) hk'
      · rw [dictGet, List.find?_cons_of_neg _ (by simp [he])]
        rw [← dictGet, ih hnd']
        constructor
        · exact List.mem_cons_of_mem _
        · intro h
          rcases List.mem_cons.mp h with h1 | h1
          · exact absurd (congrArg Prod.fst h1).symm he
          · exact h1

theorem hasKey_of_dictGet {d : PortDict} {k : PortKey} {v : PortData}
    (h : dictGet d k = some v) : hasKey d k = true := by
  unfold dictGet at h
  cases hf : d.find? (fun e => decide (e.1 = k)) with
  | none => rw [hf] at h; simp at h
  | some e =>
      have he : e.1 = k := by simpa using List.find?_some hf
      have hm := List.mem_of_find?_eq_some hf
      rw [hasKey_eq_true]
      refine ⟨e.2, ?_⟩
      obtain ⟨k', v'⟩ := e
      cases he
      exact hm

theorem mem_dictInsert {d : PortDict} {k : PortKey} {v : PortData}
    {e : PortKey × PortData} (h : e ∈ dictInsert d k v) :
    e ∈ d ∨ e = (k, v) := by
  unfold dictInsert at h
  split at h
  · obtain ⟨e0, he0, heq⟩ := List.mem_map.mp h
    by_cases h1 : e0.1 = k
    · rw [if_pos h1] at heq
      exact Or.inr heq.symm
    · rw [if_neg h1] at heq
      exact Or.inl (heq ▸ he0)
  · rcases List.mem_append.mp h with h1 | h1
    · exact Or.inl h1
    · exact Or.inr (List.mem_singleton.mp h1)

theorem dictInsert_keys (d : PortDict) (k : PortKey) (v : PortData) :
    (dictInsert d k v).map Prod.fst =
      if hasKey d k then d.map Prod.fst else d.map Prod.fst ++ [k] := by
  unfold dictInsert
  split
  · rw [List.map_map]
    refine List.map_congr_left fun e _ => ?_
    by_cases h : e.1 = k <;> simp [h]
  · simp

theorem dictInsert_nodup {d : PortDict} (h : (d.map Prod.fst).Nodup)
    (k : PortKey) (v : PortData) :
    ((dictInsert d k v).map Prod.fst).Nodup := by
  rw [dictInsert_keys]
  split
  · exact h
  · refine h.append (List.nodup_singleton k) ?_
    intro a ha hb
    rw [List.mem_singleton] at hb
    subst hb
    rw [mem_keys_iff_hasKey] at ha
    simp_all

theorem toDict_aux_nodup :
    ∀ (l : List PortData) (d : PortDict), (d.map Prod.fst).Nodup →
      ((l.foldl (fun d p => dictInsert d p.key p) d).map Prod.fst).Nodup := by
  intro l
  induction l with
  | nil => intro d h; simpa using h
  | cons p t ih =>
      intro d h
      simp only [List.foldl_cons]
      exact ih _ (dictInsert_nodup h _ _)

theorem toDict_keys_nodup (l : List PortData) :
    ((toDict l).map Prod.fst).Nodup :=
  toDict_aux_nodup l [] (by simp)

theorem toDict_mem_aux :
    ∀ (l : List PortData) (d : PortDict) (e : PortKey × PortData),
      e ∈ l.foldl (fun d p => dictInsert d p.key p) d →
      e ∈ d ∨ ∃ p, p ∈ l ∧ e = (p.key, p) := by
  intro l
  induction l with
  | nil => intro d e h; exact Or.inl (by simpa using h)
  | cons q t ih =>
      intro d e h
      simp only [List.foldl_cons] at h
      rcases ih _ e h with h1 | ⟨p, hp, hep⟩
      · rcases mem_dictInsert h1 with h2 | h2
        · exact Or.inl h2
        · exact Or.inr ⟨q, List.mem_cons_self q t, h2⟩
      · exact Or.inr ⟨p, List.mem_cons_of_mem q hp, hep⟩

theorem toDict_mem {l : List PortData} {e : PortKey × PortData}
    (h : e ∈ toDict l) : ∃ p, p ∈ l ∧ e = (p.key, p) := by
  rcases toDict_mem_aux l [] e h with h1 | h2
  · simp at h1
  · exact h2

theorem hasKey_append (d₁ d₂ : PortDict) (k : PortKey) :
    hasKey (d₁ ++ d₂) k = (hasKey d₁ k || hasKey d₂ k) := by
  simp [hasKey]

theorem toDict_aux_eq :
    ∀ (l : List PortData) (d : PortDict), (l.map PortData.key).Nodup →
      (∀ p ∈ l, hasKey d p.key = false) →
      l.foldl (fun d p => dictInsert d p.key p) d =
        d ++ l.map (fun p => (p.key, p)) := by
  intro l
  induction l with
  | nil => intro d _ _; simp
  | cons q t ih =>
      intro d hnd hfresh
      simp only [List.map_cons, List.nodup_cons] at hnd
      obtain ⟨hq, hnd'⟩ := hnd
      simp only [List.foldl_cons, List.map_cons]
      have hq_fresh : hasKey d q.key = false :=
        hfresh q (List.mem_cons_self q t)
      have hins : dictInsert d q.key q = d ++ [(q.key, q)] := by
        unfold dictInsert
        rw [if_neg (by simp [hq_fresh])]
      rw [hins, ih (d ++ [(q.key, q)]) hnd' ?_]
      · simp
      · intro p hp
        rw [hasKey_append, hfresh p (List.mem_cons_of_mem q hp)]
        have hne : q.key ≠ p.key := fun hcon =>
          hq (hcon ▸ List.mem_map_of_mem PortData.key hp)
        simp [hasKey, hne]

theorem toDict_of_nodup {l : List PortData}
    (h : (l.map PortData.key).Nodup) :
    toDict l = l.map (fun p => (p.key, p)) := by
  have := toDict_aux_eq l [] h (by intro p _; simp [hasKey])
  simpa [toDict] using this

/-- C3: the risk-level function is evaluated first-match-wins in the fixed
priority order of the spec's §4.3 (rules 1-6, transcribed as
`spec_classify_level`); in particular, for a high-risk port a `New` change
yields ERROR while a `Closed` change yields WARNING, not ERROR. -/
theorem determine_alert_level_first_match (pd : PortData) :
    (∀ ct, determine_alert_level pd ct =
        spec_classify_level ct pd.port pd.process_name pd.state) ∧
    (pd.port ∈ high_risk_ports →
      determine_alert_level pd ChangeType.new = "ERROR" ∧
      determine_alert_level pd ChangeType.closed = "WARNING") := by
  constructor
  · intro ct
    rfl
  · intro h
    constructor
    · unfold determine_alert_level
      rw [if_pos ⟨rfl, h⟩]
    · unfold determine_alert_level
      rw [if_neg (by simp), if_neg (by simp)]
      by_cases hs : pd.state ∈ suspicious_states
      · rw [if_pos hs]
      · rw [if_neg hs, if_neg (by simp), if_pos ⟨rfl, h⟩]

/-- Witness for C3 at port 22: sshd appearing is ERROR, disappearing is
WARNING. -/
theorem determine_alert_level_first_match_witness :
    determine_alert_level pd_ssh ChangeType.new = "ERROR" ∧
    determine_alert_level pd_ssh ChangeType.closed = "WARNING" :=
  (determine_alert_level_first_match pd_ssh).2 (by decide)

/-- C4: the scheduler's interval choice.  `detect_changes` always returns a
dict with its three keys, so the Python truthiness test
`if scan_result['changes']:` is always true and the busy interval is chosen
even for a cycle with no changes at all; the idle branch is unreachable. -/
theorem next_scan_interval_always_busy :
    next_scan_interval
        { new_ports := [], closed_ports := [], changed_ports := [] } =
      Config.SCAN_INTERVAL_BUSY ∧
    Config.SCAN_INTERVAL_BUSY ≠ Config.SCAN_INTERVAL_IDLE ∧
    ∀ c : Changes, next_scan_interval c = Config.SCAN_INTERVAL_BUSY :=
  ⟨rfl, by decide, fun _ => rfl⟩

theorem db_retry_go_success {α : Type} (op : Nat → DbAttempt (List α))
    (m f : Nat) (r : List α) (hf : f < m)
    (htr : ∀ k, k < f → op k = DbAttempt.transient)
    (hs : op f = DbAttempt.success r) :
    ∀ (d a rb : Nat), a + d = f →
      db_operation_with_retry_go op m a rb = (some r, f + 1, rb + d) := by
  intro d
  induction d with
  | zero =>
      intro a rb ha
      have haf : a = f := by omega
      subst haf
      unfold db_operation_with_retry_go
      rw [if_pos hf, hs]
      rfl
  | succ n ih =>
      intro a rb ha
      have haf : a < f := by omega
      have h1 : a < m := by omega
      have h2 : a < m - 1 := by omega
      unfold db_operation_with_retry_go
      rw [if_pos h1, htr a haf, if_pos h2, ih (a + 1) (rb + 1) (by omega)]
      have : rb + 1 + n = rb + (n + 1) := by omega
      rw [this]

theorem db_retry_go_all_transient {α : Type} (op : Nat → DbAttempt (List α))
    (m : Nat) (htr : ∀ k, k < m → op k = DbAttempt.transient) :
    ∀ (d a rb : Nat), a + d + 1 = m →
      db_operation_with_retry_go op m a rb =
        (some ([] : List α), m, rb + d) := by
  intro d
  induction d with
  | zero =>
      intro a rb ha
      have h1 : a < m := by omega
      have h2 : ¬a < m - 1 := by omega
      unfold db_operation_with_retry_go
      rw [if_pos h1, htr a h1, if_neg h2]
      have : a + 1 = m := by omega
      rw [this]
      rfl
  | succ n ih =>
      intro a rb ha
      have h1 : a < m := by omega
      have h2 : a < m - 1 := by omega
      unfold db_operation_with_retry_go
      rw [if_pos h1, htr a h1, if_pos h2, ih (a + 1) (rb + 1) (by omega)]
      have : rb + 1 + n = rb + (n + 1) := by omega
      rw [this]

/-- C5: the bounded-retry policy of `_db_operation_with_retry`.  If the
operation fails transiently on the first `f ≤ max_retries - 1` attempts and
then succeeds, the wrapper returns the successful result after exactly
`f + 1 ≤ max_retries` attempts with a rollback between consecutive
attempts; if all `max_retries` attempts fail transiently it degrades to the
empty result (performing `max_retries - 1` rollbacks) and never raises. -/
theorem db_operation_with_retry_policy {α : Type}
    (op : Nat → DbAttempt (List α)) (max_retries : Nat)
    (hpos : 0 < max_retries) :
    (∀ f r, f < max_retries →
      (∀ k, k < f → op k = DbAttempt.transient) →
      op f = DbAttempt.success r →
      db_operation_with_retry op max_retries = (some r, f + 1, f)) ∧
    ((∀ k, k < max_retries → op k = DbAttempt.transient) →
      db_operation_with_retry op max_retries =
        (some [], max_retries, max_retries - 1)) := by
  constructor
  · intro f r hf htr hs
    have h := db_retry_go_success op max_retries f r hf htr hs f 0 0 (by omega)
    simpa [db_operation_with_retry] using h
  · intro htr
    have h := db_retry_go_all_transient op max_retries htr (max_retries - 1)
      0 0 (by omega)
    simpa [db_operation_with_retry] using h

/-- Witness for C5: with `max_retries = 3`, two transient failures followed
by success return the operation's result in exactly 3 attempts with 2
rollbacks. -/
theorem db_operation_with_retry_policy_witness :
    db_operation_with_retry retry_op_example 3 = (some [7], 3, 2) :=
  (db_operation_with_retry_policy retry_op_example 3 (by decide)).1 2 [7]
    (by decide) (by decide) (by decide)

/-- C6: the scan-now trigger honours the single-flight guard: with the
scan-in-progress flag set it returns the 409 conflict response and spawns
no scan; with the flag clear it spawns the one-shot scan and returns the
started response. -/
theorem trigger_scan_single_flight :
    (trigger_scan true).success = false ∧
    (trigger_scan true).http_status = 409 ∧
    (trigger_scan true).scan_started = false ∧
    (trigger_scan false).success = true ∧
    (trigger_scan false).http_status = 200 ∧
    (trigger_scan false).scan_started = true := by
  decide

/-- C2 counterexample: `check_port_changes` never reads `changed_ports`.
Diffing two snapshots of port 443/TCP whose owning pid changed yields
exactly one Modified change, and that change set produces zero alerts —
nothing is classified or persisted for it. -/
theorem modified_changes_never_alerted :
    pd_tls_cur.pid ≠ pd_tls_prev.pid ∧
    detect_changes (toDict [pd_tls_prev]) [pd_tls_cur] =
      { new_ports := [], closed_ports := [],
        changed_ports :=
          [{ port_data := pd_tls_cur, previous_state := pd_tls_prev }] } ∧
    check_port_changes (detect_changes (toDict [pd_tls_prev]) [pd_tls_cur]) =
      [] := by
  refine ⟨by decide, by decide, rfl⟩

/-- C2 (amended): every New and every Closed change entry is classified
into an alert and persisted; Modified changes contribute nothing — the
alert list is exactly the classification of the new entries followed by
the closed entries, independently of `changed_ports`. -/
theorem check_port_changes_new_closed_only (changes : Changes) :
    (∀ a, a ∈ check_port_changes changes ↔
        (∃ pd ∈ changes.new_ports, a = port_change_alert pd ChangeType.new) ∨
        (∃ pd ∈ changes.closed_ports,
          a = port_change_alert pd ChangeType.closed)) ∧
    (check_port_changes changes).length =
      changes.new_ports.length + changes.closed_ports.length ∧
    check_port_changes
        { new_ports := changes.new_ports,
          closed_ports := changes.closed_ports, changed_ports := [] } =
      check_port_changes changes := by
  refine ⟨fun a => ?_, by simp [check_port_changes], rfl⟩
  simp only [check_port_changes, List.mem_append, List.mem_map]
  constructor
  · rintro (⟨pd, hm, he⟩ | ⟨pd, hm, he⟩)
    · exact Or.inl ⟨pd, hm, he.symm⟩
    · exact Or.inr ⟨pd, hm, he.symm⟩
  · rintro (⟨pd, hm, he⟩ | ⟨pd, hm, he⟩)
    · exact Or.inl ⟨pd, hm, he.symm⟩
    · exact Or.inr ⟨pd, hm, he.symm⟩

/-- Witness for C2 (amended): one new and one closed entry yield exactly
two alerts, and dropping `changed_ports` changes nothing. -/
theorem check_port_changes_new_closed_only_witness :
    (check_port_changes
        { new_ports := [pd_ssh], closed_ports := [pd_http],
          changed_ports :=
            [{ port_data := pd_tls_cur, previous_state := pd_tls_prev }] }).length
      = 2 :=
  (check_port_changes_new_closed_only
    { new_ports := [pd_ssh], closed_ports := [pd_http],
      changed_ports :=
        [{ port_data := pd_tls_cur, previous_state := pd_tls_prev }] }).2.1

/-- C10 counterexample: a cycle whose only change is a Modified change on
the ignore-listed port 5432 (pid 10 → 11) produces no alert at all, so it
is not the case that every change is classified into a persisted alert. -/
theorem ignore_ports_claim_counterexample :
    pd_pg_cur.port ∈ Config.IGNORE_PORTS ∧
    pd_pg_cur.pid ≠ pd_pg_prev.pid ∧
    detect_changes (toDict [pd_pg_prev]) [pd_pg_cur] =
      { new_ports := [], closed_ports := [],
        changed_ports :=
          [{ port_data := pd_pg_cur, previous_state := pd_pg_prev }] } ∧
    check_port_changes (detect_changes (toDict [pd_pg_prev]) [pd_pg_cur]) =
      [] := by
  refine ⟨by decide, by decide, by decide, rfl⟩

/-- C10 (amended): the configured ignore-port set has no effect on
alerting — every new or closed change is classified and persisted
regardless of whether its port is in `IGNORE_PORTS` (which no code ever
reads); there is no filtering before classification. -/
theorem ignore_ports_have_no_effect (changes : Changes) :
    (check_port_changes changes).length =
      changes.new_ports.length + changes.closed_ports.length ∧
    (∀ pd, pd ∈ changes.new_ports → pd.port ∈ Config.IGNORE_PORTS →
      port_change_alert pd ChangeType.new ∈ check_port_changes changes) ∧
    (∀ pd, pd ∈ changes.closed_ports → pd.port ∈ Config.IGNORE_PORTS →
      port_change_alert pd ChangeType.closed ∈ check_port_changes changes) := by
  refine ⟨by simp [check_port_changes], fun pd hm _ => ?_, fun pd hm _ => ?_⟩
  · exact List.mem_append_left _ (List.mem_map_of_mem _ hm)
  · exact List.mem_append_right _ (List.mem_map_of_mem _ hm)

/-- Witness for C10 (amended): a new listener on the ignore-listed port
5432 still produces its alert. -/
theorem ignore_ports_have_no_effect_witness :
    pd_pg_cur.port ∈ Config.IGNORE_PORTS ∧
    port_change_alert pd_pg_cur ChangeType.new ∈
      check_port_changes
        { new_ports := [pd_pg_cur], closed_ports := [], changed_ports := [] } :=
  ⟨by decide,
   (ignore_ports_have_no_effect
      { new_ports := [pd_pg_cur], closed_ports := [],
        changed_ports := [] }).2.1 pd_pg_cur (by decide) (by decide)⟩

theorem store_get_map_set (store : AlertStore) (alert_id k : Nat) :
    store_get
        (store.map (fun e =>
          if e.1 = alert_id then (e.1, { e.2 with resolved := true }) else e))
        k =
      if k = alert_id then
        (store_get store k).map (fun a => { a with resolved := true })
      else store_get store k := by
  unfold store_get
  rw [List.find?_map]
  have hp : ((fun e : Nat × Alert => decide (e.1 = k)) ∘ fun e =>
      if e.1 = alert_id then (e.1, { e.2 with resolved := true }) else e) =
      fun e : Nat × Alert => decide (e.1 = k) := by
    funext e
    by_cases h : e.1 = alert_id <;> simp [Function.comp, h]
  rw [hp]
  cases hf : store.find? (fun e => decide (e.1 = k)) with
  | none => split <;> simp
  | some e =>
      have he : e.1 = k := by simpa using List.find?_some hf
      by_cases hk : k = alert_id
      · rw [if_pos hk]
        simp [he, hk]
      · rw [if_neg hk]
        have : ¬e.1 = alert_id := fun hc => hk (he ▸ hc)
        simp [this]

theorem resolve_map_idem (store : AlertStore) (alert_id : Nat) :
    ((store.map (fun e =>
        if e.1 = alert_id then (e.1, { e.2 with resolved := true }) else e)).map
      (fun e =>
        if e.1 = alert_id then (e.1, { e.2 with resolved := true }) else e)) =
      store.map (fun e =>
        if e.1 = alert_id then (e.1, { e.2 with resolved := true }) else e) := by
  rw [List.map_map]
  refine List.map_congr_left fun e _ => ?_
  by_cases h : e.1 = alert_id <;> simp [Function.comp, h]

theorem resolve_alert_fst_of_get_some {store : AlertStore} {alert_id : Nat}
    {a : Alert} (h : store_get store alert_id = some a) :
    (resolve_alert store alert_id).1 = true := by
  unfold resolve_alert
  rw [h]

theorem resolve_alert_snd_of_get_some {store : AlertStore} {alert_id : Nat}
    {a : Alert} (h : store_get store alert_id = some a) :
    (resolve_alert store alert_id).2 =
      store.map (fun e =>
        if e.1 = alert_id then (e.1, { e.2 with resolved := true }) else e) := by
  unfold resolve_alert
  rw [h]

/-- C7: `resolve_alert` returns true exactly when an alert with the id
exists, setting its resolved flag; it is idempotent — a second call on an
already-resolved id still returns true and leaves the store exactly as it
was after the first call (no net write) — and on an unknown id it returns
false and performs no mutation; rows with other ids are never touched. -/
theorem resolve_alert_spec (store : AlertStore) (alert_id : Nat) :
    (∀ a, store_get store alert_id = some a →
      (resolve_alert store alert_id).1 = true ∧
      store_get (resolve_alert store alert_id).2 alert_id =
        some { a with resolved := true }) ∧
    (store_get store alert_id ≠ none →
      (resolve_alert (resolve_alert store alert_id).2 alert_id).1 = true ∧
      (resolve_alert (resolve_alert store alert_id).2 alert_id).2 =
        (resolve_alert store alert_id).2) ∧
    (store_get store alert_id = none →
      resolve_alert store alert_id = (false, store)) ∧
    (∀ j, j ≠ alert_id →
      store_get (resolve_alert store alert_id).2 j = store_get store j) := by
  refine ⟨fun a ha => ⟨?_, ?_⟩, fun h => ?_, fun h => ?_, fun j hj => ?_⟩
  · exact resolve_alert_fst_of_get_some ha
  · rw [resolve_alert_snd_of_get_some ha, store_get_map_set, if_pos rfl, ha]
    rfl
  · obtain ⟨a, ha⟩ := Option.ne_none_iff_exists'.mp h
    have hsnd := resolve_alert_snd_of_get_some ha
    have h2 : store_get (resolve_alert store alert_id).2 alert_id =
        some { a with resolved := true } := by
      rw [hsnd, store_get_map_set, if_pos rfl, ha]
      rfl
    refine ⟨resolve_alert_fst_of_get_some h2, ?_⟩
    rw [resolve_alert_snd_of_get_some h2, hsnd]
    exact resolve_map_idem store alert_id
  · simp [resolve_alert, h]
  · cases h : store_get store alert_id with
    | none => simp [resolve_alert, h]
    | some a =>
        rw [resolve_alert_snd_of_get_some h, store_get_map_set, if_neg hj]

/-- Witness for C7: in the one-row store, resolving id 1 succeeds and
marks the row resolved; resolving the unknown id 2 returns false and
leaves the store untouched; the second resolve of id 1 changes nothing. -/
theorem resolve_alert_spec_witness :
    (resolve_alert [(1, alert_row)] 1).1 = true ∧
    store_get (resolve_alert [(1, alert_row)] 1).2 1 =
      some { alert_row with resolved := true } ∧
    (resolve_alert (resolve_alert [(1, alert_row)] 1).2 1).2 =
      (resolve_alert [(1, alert_row)] 1).2 ∧
    resolve_alert [(1, alert_row)] 2 = (false, [(1, alert_row)]) :=
  ⟨((resolve_alert_spec [(1, alert_row)] 1).1 alert_row (by decide)).1,
   ((resolve_alert_spec [(1, alert_row)] 1).1 alert_row (by decide)).2,
   ((resolve_alert_spec [(1, alert_row)] 1).2.1 (by decide)).2,
   (resolve_alert_spec [(1, alert_row)] 2).2.2.1 (by decide)⟩

theorem parse_port_info_loop_eq_filterMap (proc_table : Nat → Option ProcInfo)
    (conns : List Conn) :
    parse_port_info_loop proc_table conns =
      conns.filterMap (conn_to_port_data proc_table) := by
  suffices h : ∀ acc : List PortData,
      conns.foldl
        (fun acc conn =>
          match conn_to_port_data proc_table conn with
          | some pd => acc ++ [pd]
          | none => acc)
        acc = acc ++ conns.filterMap (conn_to_port_data proc_table) by
    simpa [parse_port_info_loop] using h []
  induction conns with
  | nil => intro acc; simp
  | cons c t ih =>
      intro acc
      simp only [List.foldl_cons, List.filterMap_cons]
      cases h : conn_to_port_data proc_table c with
      | none => simpa using ih acc
      | some pd => simp [ih (acc ++ [pd])]

/-- C8: the snapshot collector's drop policy.  A total enumeration failure
yields the empty snapshot instead of raising; every entry that reaches the
snapshot carries fully resolved process metadata (so an endpoint with no
pid, a vanished process or a denied lookup is dropped entirely, never
emitted with placeholders); and a connection whose lookup fails contributes
nothing while the rest of the scan proceeds unchanged. -/
theorem parse_port_info_drop_policy (proc_table : Nat → Option ProcInfo) :
    (∀ msg, parse_port_info proc_table (Except.error msg) = []) ∧
    (∀ conns pd, pd ∈ parse_port_info proc_table (Except.ok conns) →
      ∃ p info, pd.pid = some p ∧ proc_table p = some info ∧
        info.name ≠ "unknown" ∧ pd.process_name = info.name ∧
        pd.user = info.username ∧ pd.cmdline = info.cmdline) ∧
    (∀ xs c ys,
      (c.pid = none ∨ ∃ p, c.pid = some p ∧ proc_table p = none) →
      parse_port_info proc_table (Except.ok (xs ++ c :: ys)) =
        parse_port_info proc_table (Except.ok (xs ++ ys))) := by
  refine ⟨fun msg => rfl, fun conns pd hm => ?_, fun xs c ys hc => ?_⟩
  · rw [parse_port_info, parse_port_info_loop_eq_filterMap] at hm
    obtain ⟨c, -, hc⟩ := List.mem_filterMap.mp hm
    obtain ⟨claddr, craddr, cpid, ctype, cstatus⟩ := c
    cases claddr with
    | none => simp [conn_to_port_data] at hc
    | some la =>
        cases cpid with
        | none => simp [conn_to_port_data] at hc
        | some p =>
            cases hinfo : proc_table p with
            | none => simp [conn_to_port_data, hinfo] at hc
            | some info =>
                by_cases hname : info.name = "unknown"
                · simp [conn_to_port_data, hinfo, hname] at hc
                · simp only [conn_to_port_data, hinfo] at hc
                  rw [if_neg hname] at hc
                  injection hc with hc2
                  subst hc2
                  exact ⟨p, info, rfl, hinfo, hname, rfl, rfl, rfl⟩
  · have hnone : conn_to_port_data proc_table c = none := by
      obtain ⟨claddr, craddr, cpid, ctype, cstatus⟩ := c
      cases claddr with
      | none => rfl
      | some la =>
          rcases hc with h | ⟨p, hp, hlook⟩
          · have hp : cpid = none := by simpa using h
            subst hp
            simp [conn_to_port_data]
          · have hp2 : cpid = some p := by simpa using hp
            subst hp2
            simp [conn_to_port_data, hlook]
    simp only [parse_port_info, parse_port_info_loop_eq_filterMap]
    rw [List.filterMap_append, List.filterMap_append, List.filterMap_cons,
      hnone]

/-- Witness for C8: a failed enumeration gives the empty snapshot, and a
pid-less connection is dropped without disturbing the resolvable one. -/
theorem parse_port_info_drop_policy_witness :
    parse_port_info proc_table_example (Except.error "boom") = [] ∧
    parse_port_info proc_table_example
        (Except.ok ([conn_ok_example] ++ conn_no_pid_example :: [])) =
      parse_port_info proc_table_example (Except.ok ([conn_ok_example] ++ [])) :=
  ⟨(parse_port_info_drop_policy proc_table_example).1 "boom",
   (parse_port_info_drop_policy proc_table_example).2.2 [conn_ok_example]
     conn_no_pid_example [] (Or.inl rfl)⟩

/-- C1: `detect_changes` partitions the `(port, protocol)` keys.
`new_ports` holds exactly the current-dict entries whose key is absent
from the previous snapshot, `closed_ports` exactly the previous-dict
entries whose key is absent from the current one, and `changed_ports`
exactly one `Modified(previous, current)` pair for each key present in
both whose connection state or pid differs; no key appears in more than
one of the three sets, and diffing a snapshot against itself yields three
empty sets. -/
theorem detect_changes_partition (prev current : List PortData) :
    (∀ p : PortData,
      p ∈ (detect_changes (toDict prev) current).new_ports ↔
        dictGet (toDict current) p.key = some p ∧
        hasKey (toDict prev) p.key = false) ∧
    (∀ p : PortData,
      p ∈ (detect_changes (toDict prev) current).closed_ports ↔
        dictGet (toDict prev) p.key = some p ∧
        hasKey (toDict current) p.key = false) ∧
    (∀ c : Changed,
      c ∈ (detect_changes (toDict prev) current).changed_ports →
        dictGet (toDict current) c.port_data.key = some c.port_data ∧
        dictGet (toDict prev) c.port_data.key = some c.previous_state ∧
        (c.port_data.state ≠ c.previous_state.state ∨
          c.port_data.pid ≠ c.previous_state.pid)) ∧
    (∀ (k : PortKey) (cv pv : PortData),
      dictGet (toDict current) k = some cv →
      dictGet (toDict prev) k = some pv →
      (cv.state ≠ pv.state ∨ cv.pid ≠ pv.pid) →
      ({ port_data := cv, previous_state := pv } : Changed) ∈
        (detect_changes (toDict prev) current).changed_ports) ∧
    (∀ c c' : Changed,
      c ∈ (detect_changes (toDict prev) current).changed_ports →
      c' ∈ (detect_changes (toDict prev) current).changed_ports →
      c.port_data.key = c'.port_data.key → c = c') ∧
    (∀ p q : PortData,
      p ∈ (detect_changes (toDict prev) current).new_ports →
      q ∈ (detect_changes (toDict prev) current).closed_ports →
      p.key ≠ q.key) ∧
    (∀ (p : PortData) (c : Changed),
      p ∈ (detect_changes (toDict prev) current).new_ports →
      c ∈ (detect_changes (toDict prev) current).changed_ports →
      p.key ≠ c.port_data.key) ∧
    (∀ (q : PortData) (c : Changed),
      q ∈ (detect_changes (toDict prev) current).closed_ports →
      c ∈ (detect_changes (toDict prev) current).changed_ports →
      q.key ≠ c.port_data.key) ∧
    detect_changes (toDict current) current =
      { new_ports := [], closed_ports := [], changed_ports := [] } := by
  have hndc := toDict_keys_nodup current
  have hndp := toDict_keys_nodup prev
  have hA : (detect_changes (toDict prev) current).new_ports =
      ((toDict current).filter (fun e => !hasKey (toDict prev) e.1)).map
        (fun e => e.2) := rfl
  have hB : (detect_changes (toDict prev) current).closed_ports =
      ((toDict prev).filter (fun e => !hasKey (toDict current) e.1)).map
        (fun e => e.2) := rfl
  have hC : (detect_changes (toDict prev) current).changed_ports =
      (toDict current).filterMap (fun e =>
        match dictGet (toDict prev) e.1 with
        | some last_data =>
            if e.2.state ≠ last_data.state ∨ e.2.pid ≠ last_data.pid then
              some { port_data := e.2, previous_state := last_data }
            else none
        | none => none) := rfl
  have hnew : ∀ p : PortData,
      p ∈ (detect_changes (toDict prev) current).new_ports ↔
        dictGet (toDict current) p.key = some p ∧
        hasKey (toDict prev) p.key = false := by
    intro p
    rw [hA]
    constructor
    · intro hp
      obtain ⟨e, hef, he2⟩ := List.mem_map.mp hp
      obtain ⟨hemem, hpred⟩ := List.mem_filter.mp hef
      obtain ⟨q, -, heq⟩ := toDict_mem hemem
      subst he2
      have hkey : e.1 = e.2.key := by rw [heq]
      refine ⟨(dictGet_eq_some hndc).mpr ?_, ?_⟩
      · rw [← hkey]
        exact hemem
      · rw [← hkey]
        simpa using hpred
    · rintro ⟨hget, hhk⟩
      refine List.mem_map.mpr ⟨(p.key, p), List.mem_filter.mpr
        ⟨(dictGet_eq_some hndc).mp hget, by simp [hhk]⟩, rfl⟩
  have hclosed : ∀ p : PortData,
      p ∈ (detect_changes (toDict prev) current).closed_ports ↔
        dictGet (toDict prev) p.key = some p ∧
        hasKey (toDict current) p.key = false := by
    intro p
    rw [hB]
    constructor
    · intro hp
      obtain ⟨e, hef, he2⟩ := List.mem_map.mp hp
      obtain ⟨hemem, hpred⟩ := List.mem_filter.mp hef
      obtain ⟨q, -, heq⟩ := toDict_mem hemem
      subst he2
      have hkey : e.1 = e.2.key := by rw [heq]
      refine ⟨(dictGet_eq_some hndp).mpr ?_, ?_⟩
      · rw [← hkey]
        exact hemem
      · rw [← hkey]
        simpa using hpred
    · rintro ⟨hget, hhk⟩
      refine List.mem_map.mpr ⟨(p.key, p), List.mem_filter.mpr
        ⟨(dictGet_eq_some hndp).mp hget, by simp [hhk]⟩, rfl⟩
  have hsound : ∀ c : Changed,
      c ∈ (detect_changes (toDict prev) current).changed_ports →
        dictGet (toDict current) c.port_data.key = some c.port_data ∧
        dictGet (toDict prev) c.port_data.key = some c.previous_state ∧
        (c.port_data.state ≠ c.previous_state.state ∨
          c.port_data.pid ≠ c.previous_state.pid) := by
    intro c hc
    rw [hC] at hc
    obtain ⟨e, he, hfe⟩ := List.mem_filterMap.mp hc
    split at hfe
    · rename_i ld hget
      split at hfe
      · rename_i hcond
        injection hfe with hfe2
        subst hfe2
        obtain ⟨q, -, heq⟩ := toDict_mem he
        have hkey : e.1 = e.2.key := by rw [heq]
        show dictGet (toDict current) e.2.key = some e.2 ∧
          dictGet (toDict prev) e.2.key = some ld ∧
          (e.2.state ≠ ld.state ∨ e.2.pid ≠ ld.pid)
        refine ⟨(dictGet_eq_some hndc).mpr ?_, ?_, hcond⟩
        · rw [← hkey]
          exact he
        · rw [← hkey]
          exact hget
      · exact absurd hfe (by simp)
    · exact absurd hfe (by simp)
  refine ⟨hnew, hclosed, hsound, ?_, ?_, ?_, ?_, ?_, ?_⟩
  · -- completeness of changed_ports
    intro k cv pv hcv hpv hdiff
    rw [hC]
    refine List.mem_filterMap.mpr ⟨(k, cv), (dictGet_eq_some hndc).mp hcv, ?_⟩
    show (match dictGet (toDict prev) k with
      | some last_data =>
          if cv.state ≠ last_data.state ∨ cv.pid ≠ last_data.pid then
            some ({ port_data := cv, previous_state := last_data } : Changed)
          else none
      | none => none) =
        some { port_data := cv, previous_state := pv }
    split
    · rename_i ld hld
      have hlp : ld = pv := Option.some.inj (hld.symm.trans hpv)
      subst hlp
      rw [if_pos hdiff]
    · rename_i hld
      exact Option.noConfusion (hld.symm.trans hpv)
  · -- uniqueness per key
    intro c c' hc hc' hkey
    have h1 := hsound c hc
    have h2 := hsound c' hc'
    have hpd : c.port_data = c'.port_data := by
      have h3 := h2.1
      rw [← hkey] at h3
      exact Option.some.inj (h1.1.symm.trans h3)
    have hps : c.previous_state = c'.previous_state := by
      have h3 := h2.2.1
      rw [← hkey] at h3
      exact Option.some.inj (h1.2.1.symm.trans h3)
    obtain ⟨a, b⟩ := c
    obtain ⟨a', b'⟩ := c'
    simp_all
  · -- new and closed keys are disjoint
    intro p q hp hq hk
    have h1 := ((hnew p).mp hp).2
    have h2 := hasKey_of_dictGet ((hclosed q).mp hq).1
    rw [hk] at h1
    rw [h1] at h2
    cases h2
  · -- new and changed keys are disjoint
    intro p c hp hc hk
    have h1 := ((hnew p).mp hp).2
    have h2 := hasKey_of_dictGet (hsound c hc).2.1
    rw [hk] at h1
    rw [h1] at h2
    cases h2
  · -- closed and changed keys are disjoint
    intro q c hq hc hk
    have h1 := ((hclosed q).mp hq).2
    have h2 := hasKey_of_dictGet (hsound c hc).1
    rw [hk] at h1
    rw [h1] at h2
    cases h2
  · -- identical snapshots diff to three empty sets
    have e1 : (detect_changes (toDict current) current).new_ports = [] := by
      rw [show (detect_changes (toDict current) current).new_ports =
          ((toDict current).filter (fun e => !hasKey (toDict current) e.1)).map
            (fun e => e.2) from rfl]
      rw [List.filter_eq_nil_iff.mpr ?_]
      · rfl
      · intro e he
        have hk : hasKey (toDict current) e.1 = true :=
          hasKey_eq_true.mpr ⟨e.2, he⟩
        simp [hk]
    have e2 : (detect_changes (toDict current) current).closed_ports = [] := by
      rw [show (detect_changes (toDict current) current).closed_ports =
          ((toDict current).filter (fun e => !hasKey (toDict current) e.1)).map
            (fun e => e.2) from rfl]
      rw [List.filter_eq_nil_iff.mpr ?_]
      · rfl
      · intro e he
        have hk : hasKey (toDict current) e.1 = true :=
          hasKey_eq_true.mpr ⟨e.2, he⟩
        simp [hk]
    have e3 : (detect_changes (toDict current) current).changed_ports = [] := by
      rw [show (detect_changes (toDict current) current).changed_ports =
          (toDict current).filterMap (fun e =>
            match dictGet (toDict current) e.1 with
            | some last_data =>
                if e.2.state ≠ last_data.state ∨ e.2.pid ≠ last_data.pid then
                  some ({ port_data := e.2, previous_state := last_data } :
                    Changed)
                else none
            | none => none) from rfl]
      refine List.filterMap_eq_nil_iff.mpr fun e he => ?_
      have hg : dictGet (toDict current) e.1 = some e.2 :=
        (dictGet_eq_some hndc).mpr he
      show (match dictGet (toDict current) e.1 with
        | some last_data =>
            if e.2.state ≠ last_data.state ∨ e.2.pid ≠ last_data.pid then
              some ({ port_data := e.2, previous_state := last_data } : Changed)
            else none
        | none => none) = none
      split
      · rename_i ld hld
        have hlp : ld = e.2 := Option.some.inj (hld.symm.trans hg)
        subst hlp
        rw [if_neg (by simp)]
      · rfl
    rcases hdc : detect_changes (toDict current) current with ⟨n, cl, ch⟩
    rw [hdc] at e1 e2 e3
    simp only at e1 e2 e3
    rw [e1, e2, e3]

/-- Witness for C1: against a previous snapshot holding only 8080/TCP, a
current snapshot holding only 22/TCP reports 22/TCP as new; and diffing
the 22/TCP snapshot against itself yields three empty sets. -/
theorem detect_changes_partition_witness :
    pd_ssh ∈ (detect_changes (toDict [pd_http]) [pd_ssh]).new_ports ∧
    detect_changes (toDict [pd_ssh]) [pd_ssh] =
      { new_ports := [], closed_ports := [], changed_ports := [] } :=
  ⟨((detect_changes_partition [pd_http] [pd_ssh]).1 pd_ssh).mpr
      ⟨by decide, by decide⟩,
   (detect_changes_partition [pd_http] [pd_ssh]).2.2.2.2.2.2.2.2⟩

/-- C9: on the very first scan cycle the stored previous result is the
empty dict, so every entry of the current snapshot (one per distinct key)
is emitted as a New change — and each of those generates an alert; closed
and modified sets are empty.  Cold start is alert-everything, not
baseline-only suppression. -/
theorem first_scan_alerts_everything (current : List PortData) :
    (detect_changes [] current).closed_ports = [] ∧
    (detect_changes [] current).changed_ports = [] ∧
    (detect_changes [] current).new_ports =
      (toDict current).map (fun e => e.2) ∧
    ((current.map PortData.key).Nodup →
      (detect_changes [] current).new_ports = current) ∧
    (check_port_changes (detect_changes [] current)).length =
      (toDict current).length ∧
    ∀ pd ∈ (detect_changes [] current).new_ports,
      port_change_alert pd ChangeType.new ∈
        check_port_changes (detect_changes [] current) := by
  have hfilter : ∀ e ∈ toDict current, (!hasKey [] e.1) = true := fun e _ => rfl
  have hnew : (detect_changes [] current).new_ports =
      (toDict current).map (fun e => e.2) := by
    rw [show (detect_changes [] current).new_ports =
        ((toDict current).filter (fun e => !hasKey [] e.1)).map
          (fun e => e.2) from rfl]
    rw [List.filter_eq_self.mpr hfilter]
  have hchanged : (detect_changes [] current).changed_ports = [] := by
    rw [show (detect_changes [] current).changed_ports =
        (toDict current).filterMap (fun e =>
          match dictGet [] e.1 with
          | some last_data =>
              if e.2.state ≠ last_data.state ∨ e.2.pid ≠ last_data.pid then
                some ({ port_data := e.2, previous_state := last_data } :
                  Changed)
              else none
          | none => none) from rfl]
    exact List.filterMap_eq_nil_iff.mpr fun e _ => rfl
  have hclosed0 : (detect_changes [] current).closed_ports = [] := rfl
  refine ⟨rfl, hchanged, hnew, fun hnd => ?_, ?_, fun pd hpd => ?_⟩
  · rw [hnew, toDict_of_nodup hnd, List.map_map]
    rw [show ((fun e : PortKey × PortData => e.2) ∘ fun p => (p.key, p)) = id
      from rfl]
    exact List.map_id current
  · rw [show check_port_changes (detect_changes [] current) =
        ((detect_changes [] current).new_ports.map
          (fun pd => port_change_alert pd ChangeType.new)) ++
        ((detect_changes [] current).closed_ports.map
          (fun pd => port_change_alert pd ChangeType.closed)) from rfl,
      hnew, hclosed0]
    simp
  · exact List.mem_append_left _ (List.mem_map_of_mem _ hpd)

/-- Witness for C9: with no previous snapshot, the single entry 22/TCP is
reported as new and its alert is generated. -/
theorem first_scan_alerts_everything_witness :
    (detect_changes [] [pd_ssh]).new_ports = [pd_ssh] ∧
    port_change_alert pd_ssh ChangeType.new ∈
      check_port_changes (detect_changes [] [pd_ssh]) :=
  ⟨(first_scan_alerts_everything [pd_ssh]).2.2.2.1 (by decide),
   (first_scan_alerts_everything [pd_ssh]).2.2.2.2.2 pd_ssh (by decide)⟩

end PortSentry
